import Mathlib

/-!
Verification of the duplicate-detection scoring engine of the SCIP backend
(`backend/ai_engine.py`).

Modelling conventions:
* Python floats are modelled by exact real arithmetic (`ℝ`); embedding
  vectors carry exact rational entries (`List ℚ`).  Binary floating-point
  representation error is not modelled.
* `numpy.dot` raises `ValueError` when the two 1-D vectors have different
  lengths; `cosine_similarity` therefore returns `Except Unit ℝ`, with
  `Except.error ()` standing for an uncaught Python exception, and
  `check_duplicate` propagates it.
* The external Gemini embedding provider (`generate_embedding`) and JSON
  deserialization (`json.loads`) are injected as function parameters
  `gen : String → Vec` and `parse : String → Option Vec`; `parse s = none`
  models a `json.loads` failure for the stored text `s`.
* Python `round(x, n)` is modelled exactly as round-half-to-even on the
  value scaled by `10^n`.
-/

abbrev Vec := List ℚ

/-- `complaint_text` from `ai_engine.py`: concatenate fields into a single
string for embedding. -/
def complaint_text (title description category location : String) : String :=
  "Category: " ++ category ++ ". Location: " ++ location ++ ". Title: " ++ title ++
    ". Description: " ++ description

/-- Exact dot product, as computed by `np.dot` on equal-length 1-D arrays. -/
def dot (a b : Vec) : ℚ :=
  (List.zipWith (fun x y => x * y) a b).sum

/-- Sum of squares of the entries of a vector. -/
def sumSq (v : Vec) : ℚ :=
  (v.map (fun x => x * x)).sum

open scoped Classical

/-- `np.linalg.norm`: the Euclidean norm, `sqrt` of the sum of squares. -/
noncomputable def npNorm (v : Vec) : ℝ :=
  Real.sqrt ((sumSq v : ℚ) : ℝ)

/-- `cosine_similarity` from `ai_engine.py`.  `np.dot` raises `ValueError`
when the 1-D shapes differ, modelled as `Except.error ()`; if the product of
the norms is zero the function returns `0.0`, otherwise `dot / norm`. -/
noncomputable def cosine_similarity (a b : Vec) : Except Unit ℝ :=
  if a.length ≠ b.length then Except.error ()
  else
    let d : ℝ := ((dot a b : ℚ) : ℝ)
    let norm : ℝ := npNorm a * npNorm b
    if norm = 0 then Except.ok 0 else Except.ok (d / norm)

/-- Python `str.lower`, restricted to its ASCII behaviour; strings are
processed as their character lists. -/
def pyLower (l : List Char) : List Char :=
  l.map Char.toLower

/-- Python `str.strip()`: drop leading and trailing whitespace. -/
def pyStrip (l : List Char) : List Char :=
  ((l.dropWhile Char.isWhitespace).reverse.dropWhile Char.isWhitespace).reverse

/-- The character class kept by `re.sub(r"[^a-z0-9 ]", "", ·)`. -/
def keepChar (c : Char) : Bool :=
  decide (('a' ≤ c ∧ c ≤ 'z') ∨ ('0' ≤ c ∧ c ≤ '9') ∨ c = ' ')

/-- `_normalize_location` from `ai_engine.py`:
`re.sub(r"[^a-z0-9 ]", "", loc.lower().strip())`, on the character list. -/
def _normalize_location (loc : String) : List Char :=
  (pyStrip (pyLower loc.toList)).filter keepChar

/-- The token set of a normalized location string: Python
`set(_normalize_location(loc).split())`.  After normalization the only
whitespace character left is `' '`, and `str.split()` drops empty pieces,
so splitting on `' '` and discarding empties is exactly `str.split()`. -/
def locTokens (loc : String) : Finset (List Char) :=
  (((_normalize_location loc).splitOn ' ').filter (fun t => !t.isEmpty)).toFinset

/-- `location_similarity` from `ai_engine.py`: word-overlap similarity,
`len(a_words & b_words) / max(len(a_words), len(b_words))`, and `0.0` when
either token set is empty. -/
def location_similarity (loc_a loc_b : String) : ℚ :=
  let a_words := locTokens loc_a
  let b_words := locTokens loc_b
  if a_words = ∅ ∨ b_words = ∅ then 0
  else
    let overlap := a_words ∩ b_words
    (overlap.card : ℚ) / ((max a_words.card b_words.card : ℕ) : ℚ)

/-- `combined_score` from `ai_engine.py`: fixed linear weights 60/30/10. -/
noncomputable def combined_score (text_sim loc_sim : ℝ) (category_match : Bool) : ℝ :=
  let cat_score : ℝ := if category_match then 1.0 else 0.0
  (text_sim * 0.60) + (loc_sim * 0.30) + (cat_score * 0.10)

/-- Python `round(x)` (to an integer): round half to even, on the exact
real value. -/
noncomputable def pyRound (x : ℝ) : ℤ :=
  let f := ⌊x⌋
  if x - f < 1 / 2 then f
  else if 1 / 2 < x - f then f + 1
  else if f % 2 = 0 then f else f + 1

/-- Python `round(x, n)`: round to the nearest multiple of `10 ^ (-n)`,
ties to even. -/
noncomputable def pyRoundTo (x : ℝ) (n : ℕ) : ℝ :=
  ((pyRound (x * (10 : ℝ) ^ n) : ℤ) : ℝ) / (10 : ℝ) ^ n

/-- The breakdown map built by `factor_scores` in `ai_engine.py`. -/
structure FactorScores where
  text_similarity : ℝ
  location_match : ℝ
  category_match : ℝ

/-- `factor_scores` from `ai_engine.py`: percentage-scaled display values,
rounded to one decimal place. -/
noncomputable def factor_scores (text_sim loc_sim : ℝ) (category_match : Bool) :
    FactorScores :=
  { text_similarity := pyRoundTo (text_sim * 100) 1
    location_match := pyRoundTo (loc_sim * 100) 1
    category_match := if category_match then 100.0 else 0.0 }

/-- The conditionally produced sentence fragments of `build_reasoning`,
in the fixed priority order text, location, category. -/
noncomputable def reasoning_parts (text_sim loc_sim : ℝ) (category_match : Bool)
    (new_location existing_location new_category : String) : List String :=
  (if text_sim ≥ 0.7 then
    ["The complaint description and title are highly similar (" ++
      toString (pyRound (text_sim * 100)) ++ "% text overlap)."]
   else if text_sim ≥ 0.5 then
    ["The complaint description shares notable similarity (" ++
      toString (pyRound (text_sim * 100)) ++ "%)."]
   else []) ++
  (if loc_sim ≥ 0.6 then
    ["Both complaints reference the same location area (" ++ existing_location ++ ")."]
   else if loc_sim ≥ 0.3 then
    ["Locations appear to be nearby (" ++ new_location ++ " vs " ++ existing_location ++ ")."]
   else []) ++
  (if category_match then
    ["Both complaints are categorized under \x27" ++ new_category ++ "\x27."]
   else [])

/-- The generic fallback sentence of `build_reasoning`. -/
noncomputable def fallback_sentence (score : ℝ) : String :=
  "Overall similarity score of " ++ toString (pyRound (score * 100)) ++
    "% exceeds the duplicate threshold."

/-- `build_reasoning` from `ai_engine.py`: join the produced fragments with
single spaces; if none was produced, emit the generic fallback sentence.
(`existing_category` is accepted but unused, as in the source.) -/
noncomputable def build_reasoning (score text_sim loc_sim : ℝ) (category_match : Bool)
    (new_location existing_location new_category existing_category : String) : String :=
  let parts := reasoning_parts text_sim loc_sim category_match
    new_location existing_location new_category
  let parts := if parts = [] then [fallback_sentence score] else parts
  String.intercalate " " parts

/-- The stored `embedding` field of a candidate row: Python `None`, a list of
floats, or a JSON-serialized text. -/
inductive StoredEmbedding where
  | missing : StoredEmbedding
  | vec : Vec → StoredEmbedding
  | text : String → StoredEmbedding

/-- A candidate complaint row, restricted to the fields `check_duplicate`
reads (`id` stands for the identifying fields that are carried through
unchanged; `location` and `category` are read with `comp.get(key, "")`). -/
structure Candidate where
  id : ℕ
  location : Option String
  category : Option String
  embedding : StoredEmbedding

/-- Python truthiness of the stored embedding: `not stored_embedding` holds
for `None`, the empty list and the empty string. -/
def embeddingFalsy : StoredEmbedding → Bool
  | .missing => true
  | .vec v => v.isEmpty
  | .text s => s.isEmpty

/-- The usable numeric vector of a stored embedding, as resolved by the loop
of `check_duplicate`: falsy values are skipped, a text value is deserialized
by `parse` (`json.loads`), and a deserialization failure yields `none`. -/
def getUsableEmbedding (parse : String → Option Vec) (e : StoredEmbedding) :
    Option Vec :=
  if embeddingFalsy e then Option.none
  else
    match e with
    | .missing => Option.none
    | .vec v => some v
    | .text s => parse s

/-- `comp.get("category", "").strip().lower()` — the normalization applied to
both categories before the equality test. -/
def catNorm (s : String) : List Char :=
  pyLower (pyStrip s.toList)

/-- The best-match dictionary built inside the loop of `check_duplicate`. -/
structure BestMatch where
  complaint : Candidate
  similarity_score : ℝ
  text_similarity : ℝ
  location_similarity : ℝ
  category_match : Bool
  factor_scores : FactorScores
  reasoning : String

/-- The loop body of `check_duplicate` for one candidate: `none` when the
candidate is skipped (missing/falsy/malformed embedding), `some (.error ())`
when `cosine_similarity` raises, and otherwise the fused score together with
the best-match record the loop would store for this candidate. -/
noncomputable def evaluate_candidate (parse : String → Option Vec)
    (new_embedding : Vec) (new_category new_location : String)
    (comp : Candidate) : Option (Except Unit (ℝ × BestMatch)) :=
  match getUsableEmbedding parse comp.embedding with
  | Option.none => Option.none
  | some stored =>
    match cosine_similarity new_embedding stored with
    | Except.error e => some (Except.error e)
    | Except.ok text_sim =>
      let loc_sim : ℝ :=
        ((location_similarity new_location (comp.location.getD "") : ℚ) : ℝ)
      let cat_match : Bool := catNorm new_category == catNorm (comp.category.getD "")
      let score := combined_score text_sim loc_sim cat_match
      some (Except.ok (score,
        { complaint := comp
          similarity_score := pyRoundTo score 4
          text_similarity := pyRoundTo text_sim 4
          location_similarity := pyRoundTo loc_sim 4
          category_match := cat_match
          factor_scores := factor_scores text_sim loc_sim cat_match
          reasoning := build_reasoning score text_sim loc_sim cat_match
            new_location (comp.location.getD "") new_category
            (comp.category.getD "") }))

/-- The candidate loop of `check_duplicate`: running best score (initialized
to `0.0` by the caller) and best match, replaced only on a strictly greater
fused score; a raised exception aborts the whole scan. -/
noncomputable def scanCandidates (parse : String → Option Vec)
    (new_embedding : Vec) (new_category new_location : String) :
    List Candidate → ℝ → Option BestMatch → Except Unit (ℝ × Option BestMatch)
  | [], best_score, best_match => Except.ok (best_score, best_match)
  | comp :: rest, best_score, best_match =>
    match evaluate_candidate parse new_embedding new_category new_location comp with
    | Option.none =>
      scanCandidates parse new_embedding new_category new_location rest
        best_score best_match
    | some (Except.error e) => Except.error e
    | some (Except.ok (score, bm)) =>
      if score > best_score then
        scanCandidates parse new_embedding new_category new_location rest
          score (some bm)
      else
        scanCandidates parse new_embedding new_category new_location rest
          best_score best_match

/-- `check_duplicate` from `ai_engine.py`.  `gen` is the injected external
embedding provider (`generate_embedding`), `parse` is `json.loads`.  An empty
candidate list short-circuits before the provider is invoked; after the scan
the stored (4-decimal-rounded) `similarity_score` of the best match is
compared against the threshold. -/
noncomputable def check_duplicate (gen : String → Vec)
    (parse : String → Option Vec)
    (new_title new_description new_category new_location : String)
    (existing_complaints : List Candidate) (threshold : ℝ) :
    Except Unit (Option BestMatch) :=
  if existing_complaints.isEmpty then Except.ok Option.none
  else
    let new_text := complaint_text new_title new_description new_category new_location
    let new_embedding := gen new_text
    match scanCandidates parse new_embedding new_category new_location
        existing_complaints 0.0 Option.none with
    | Except.error e => Except.error e
    | Except.ok (_, Option.none) => Except.ok Option.none
    | Except.ok (_, some best_match) =>
      if best_match.similarity_score ≥ threshold then Except.ok (some best_match)
      else Except.ok Option.none

/-! ### Concrete inputs used by counterexamples and witnesses -/

/-- A `json.loads` stand-in that fails on every input. -/
def parseFail : String → Option Vec := fun _ => Option.none

/-- An embedding provider returning the fixed vector `[3, 4]`. -/
def genX : String → Vec := fun _ => [3, 4]

/-- A usable candidate: embedding `[1, 0]`, seven location tokens, category `roads`. -/
def candX : Candidate :=
  ⟨7, some "a b c d e f g", some "roads", StoredEmbedding.vec [1, 0]⟩

/-- The best-match record `check_duplicate` builds for `candX` against new
location `"a"` and category `"roads"` under `genX`: raw fused score `88/175`,
stored (4-dp-rounded) score `5029/10000`. -/
noncomputable def matchX : BestMatch :=
  { complaint := candX
    similarity_score := 5029 / 10000
    text_similarity := 3 / 5
    location_similarity := 1429 / 10000
    category_match := true
    factor_scores := { text_similarity := 60, location_match := 143 / 10, category_match := 100 }
    reasoning := "The complaint description shares notable similarity (60%). Both complaints are categorized under \x27roads\x27." }

/-- An embedding provider returning the fixed vector `[1, 0]`. -/
def genO : String → Vec := fun _ => [1, 0]

/-- A usable candidate orthogonal to `genO`'s vector, with disjoint location
tokens and a different category: every similarity signal is zero. -/
def candZ : Candidate := ⟨2, some "z", some "x", StoredEmbedding.vec [0, 1]⟩

/-- A candidate whose `embedding` field is `None`. -/
def candMissing : Candidate := ⟨9, Option.none, Option.none, StoredEmbedding.missing⟩

/-- The best-match record the loop would build for `candZ`: fused score `0`,
reasoning falling back to the generic sentence. -/
noncomputable def matchZ : BestMatch :=
  { complaint := candZ
    similarity_score := 0
    text_similarity := 0
    location_similarity := 0
    category_match := false
    factor_scores := { text_similarity := 0, location_match := 0, category_match := 0 }
    reasoning := "Overall similarity score of 0% exceeds the duplicate threshold." }

/-- An embedding provider returning a length-3 vector. -/
def genMis : String → Vec := fun _ => [1, 2, 3]

/-- A candidate whose stored embedding has length 2, mismatching `genMis`. -/
def candMis : Candidate := ⟨0, Option.none, Option.none, StoredEmbedding.vec [1, 0]⟩

/-! ### Helper lemmas -/

lemma sumSq_nonneg (v : Vec) : 0 ≤ sumSq v := by
  induction v with
  | nil => simp [sumSq]
  | cons x l ih =>
    simp only [sumSq, List.map_cons, List.sum_cons]
    exact add_nonneg (mul_self_nonneg x) ih

lemma dot_self_eq_sumSq (v : Vec) : dot v v = sumSq v := by
  induction v with
  | nil => rfl
  | cons x l ih => simp only [dot, sumSq, List.zipWith_cons_cons, List.map_cons,
      List.sum_cons] at ih ⊢; rw [ih]

lemma sumSq_pos (v : Vec) (x : ℚ) (hx : x ∈ v) (hne : x ≠ 0) : 0 < sumSq v := by
  induction v with
  | nil => simp at hx
  | cons y l ih =>
    simp only [sumSq, List.map_cons, List.sum_cons]
    rcases List.mem_cons.mp hx with h | h
    · subst h
      exact add_pos_of_pos_of_nonneg (mul_self_pos.mpr hne) (sumSq_nonneg l)
    · exact add_pos_of_nonneg_of_pos (mul_self_nonneg y) (ih h)

lemma cosX : cosine_similarity [3, 4] [1, 0] = Except.ok (3 / 5) := by
  unfold cosine_similarity npNorm
  norm_num
  rw [show sumSq [3, 4] = 25 from by norm_num [sumSq],
      show sumSq [1, 0] = 1 from by norm_num [sumSq],
      show dot [3, 4] [1, 0] = 3 from by norm_num [dot]]
  norm_num
  rw [show Real.sqrt 25 = 5 from by
        rw [show (25 : ℝ) = 5 ^ 2 by norm_num, Real.sqrt_sq (by norm_num)]]

lemma locX : location_similarity "a" "a b c d e f g" = 1 / 7 := by
  simp only [location_similarity]
  rw [if_neg (by decide)]
  rw [show (locTokens "a" ∩ locTokens "a b c d e f g").card = 1 from by decide,
      show (max (locTokens "a").card (locTokens "a b c d e f g").card : ℕ) = 7 from by decide]
  norm_num

lemma scoreX : combined_score (3 / 5) (((1 / 7 : ℚ) : ℝ)) true = 88 / 175 := by
  unfold combined_score
  push_cast
  norm_num

lemma r4sX : pyRoundTo (88 / 175 : ℝ) 4 = 5029 / 10000 := by
  unfold pyRoundTo pyRound
  rw [show ((88 : ℝ) / 175 * 10 ^ 4) = 880000 / 175 by norm_num]
  rw [show ⌊(880000 / 175 : ℝ)⌋ = 5028 from by rw [Int.floor_eq_iff] <;> norm_num]
  norm_num

lemma r4tX : pyRoundTo (3 / 5 : ℝ) 4 = 3 / 5 := by
  unfold pyRoundTo pyRound
  rw [show ((3 : ℝ) / 5 * 10 ^ 4) = 6000 by norm_num]
  rw [show ⌊(6000 : ℝ)⌋ = 6000 from by rw [Int.floor_eq_iff] <;> norm_num]
  norm_num

lemma r4lX : pyRoundTo (((1 / 7 : ℚ) : ℝ)) 4 = 1429 / 10000 := by
  unfold pyRoundTo pyRound
  rw [show ((((1 / 7 : ℚ) : ℝ)) * 10 ^ 4) = 10000 / 7 by push_cast; norm_num]
  rw [show ⌊(10000 / 7 : ℝ)⌋ = 1428 from by rw [Int.floor_eq_iff] <;> norm_num]
  norm_num

lemma fsX : factor_scores (3 / 5) (((1 / 7 : ℚ) : ℝ)) true =
    { text_similarity := 60, location_match := 143 / 10, category_match := 100 } := by
  unfold factor_scores pyRoundTo pyRound
  rw [show ((3 : ℝ) / 5 * 100 * 10 ^ 1) = 600 by norm_num]
  rw [show ((((1 / 7 : ℚ) : ℝ)) * 100 * 10 ^ 1) = 1000 / 7 by push_cast; norm_num]
  rw [show ⌊(600 : ℝ)⌋ = 600 from by rw [Int.floor_eq_iff] <;> norm_num]
  rw [show ⌊(1000 / 7 : ℝ)⌋ = 142 from by rw [Int.floor_eq_iff] <;> norm_num]
  norm_num

lemma brX : build_reasoning (88 / 175) (3 / 5) (((1 / 7 : ℚ) : ℝ)) true
    "a" "a b c d e f g" "roads" "roads" = matchX.reasoning := by
  unfold build_reasoning reasoning_parts
  rw [if_neg (show ¬((3 : ℝ) / 5 ≥ 0.7) by norm_num),
      if_pos (show (3 : ℝ) / 5 ≥ 0.5 by norm_num),
      if_neg (show ¬(((1 / 7 : ℚ) : ℝ) ≥ 0.6) by push_cast; norm_num),
      if_neg (show ¬(((1 / 7 : ℚ) : ℝ) ≥ 0.3) by push_cast; norm_num),
      if_pos (show true = true from rfl)]
  rw [show pyRound ((3 : ℝ) / 5 * 100) = 60 from by
    unfold pyRound
    rw [show ((3 : ℝ) / 5 * 100) = 60 by norm_num]
    rw [show ⌊(60 : ℝ)⌋ = 60 from by rw [Int.floor_eq_iff] <;> norm_num]
    norm_num]
  rfl

lemma evalX : evaluate_candidate parseFail [3, 4] "roads" "a" candX =
    some (Except.ok (88 / 175, matchX)) := by
  simp only [evaluate_candidate, getUsableEmbedding, embeddingFalsy, parseFail, candX,
    List.isEmpty_cons, Bool.false_eq_true, if_false, cosX, Option.getD_some, locX, scoreX,
    r4sX, r4tX, r4lX, fsX, brX, beq_self_eq_true]
  rfl

lemma scanX : scanCandidates parseFail [3, 4] "roads" "a" [candX] 0.0 Option.none =
    Except.ok (88 / 175, some matchX) := by
  simp only [scanCandidates, evalX]
  rw [if_pos (show (88 : ℝ) / 175 > 0.0 by norm_num)]

lemma checkX : check_duplicate genX parseFail "t" "d" "roads" "a" [candX] (5029 / 10000) =
    Except.ok (some matchX) := by
  simp only [check_duplicate, genX, List.isEmpty_cons, Bool.false_eq_true, if_false, scanX]
  rw [if_pos (show matchX.similarity_score ≥ 5029 / 10000 from by
    unfold matchX; norm_num)]

-- ───────── general lemmas ─────────

lemma cosZ : cosine_similarity [1, 0] [0, 1] = Except.ok 0 := by
  unfold cosine_similarity npNorm
  norm_num
  rw [show sumSq [1, 0] = 1 from by norm_num [sumSq],
      show sumSq [0, 1] = 1 from by norm_num [sumSq],
      show dot [1, 0] [0, 1] = 0 from by norm_num [dot]]
  norm_num

lemma locZ : location_similarity "a" "z" = 0 := by
  simp only [location_similarity]
  rw [if_neg (by decide)]
  rw [show (locTokens "a" ∩ locTokens "z").card = 0 from by decide]
  norm_num

lemma scoreZ : combined_score 0 (((0 : ℚ) : ℝ)) false = 0 := by
  unfold combined_score
  push_cast
  norm_num

lemma r4Z : pyRoundTo (0 : ℝ) 4 = 0 := by
  unfold pyRoundTo pyRound
  norm_num

lemma r4Zq : pyRoundTo (((0 : ℚ) : ℝ)) 4 = 0 := by
  rw [show (((0 : ℚ) : ℝ)) = 0 by push_cast; rfl]
  exact r4Z

lemma fsZ : factor_scores 0 (((0 : ℚ) : ℝ)) false =
    { text_similarity := 0, location_match := 0, category_match := 0 } := by
  unfold factor_scores pyRoundTo pyRound
  push_cast
  norm_num

lemma brZ : build_reasoning 0 0 (((0 : ℚ) : ℝ)) false "a" "z" "c" "x" =
    matchZ.reasoning := by
  unfold build_reasoning reasoning_parts fallback_sentence
  rw [if_neg (show ¬((0 : ℝ) ≥ 0.7) by norm_num),
      if_neg (show ¬((0 : ℝ) ≥ 0.5) by norm_num),
      if_neg (show ¬(((0 : ℚ) : ℝ) ≥ 0.6) by push_cast; norm_num),
      if_neg (show ¬(((0 : ℚ) : ℝ) ≥ 0.3) by push_cast; norm_num),
      if_neg (show ¬(false = true) by simp)]
  rw [show pyRound ((0 : ℝ) * 100) = 0 from by unfold pyRound; norm_num]
  rfl

lemma evalZ : evaluate_candidate parseFail (genO (complaint_text "t" "d" "c" "a")) "c" "a" candZ =
    some (Except.ok (0, matchZ)) := by
  simp only [evaluate_candidate, getUsableEmbedding, embeddingFalsy, parseFail, genO, candZ,
    List.isEmpty_cons, Bool.false_eq_true, if_false, cosZ, Option.getD_some, locZ, scoreZ,
    r4Z, r4Zq, fsZ, brZ]
  rw [show (catNorm "c" == catNorm "x") = false from by decide]
  simp only [scoreZ, r4Z, fsZ, brZ]
  rfl

-- ───────── claim theorems ─────────

lemma eval_ok_fields (parse : String → Option Vec) (ne : Vec) (nc nl : String)
    (c : Candidate) (s : ℝ) (bm : BestMatch)
    (h : evaluate_candidate parse ne nc nl c = some (Except.ok (s, bm))) :
    bm.similarity_score = pyRoundTo s 4 ∧ bm.complaint = c ∧
    getUsableEmbedding parse c.embedding ≠ Option.none := by
  unfold evaluate_candidate at h
  split at h
  · exact absurd h (by simp)
  next v heq =>
    split at h
    · exact absurd h (by simp)
    next t hcos =>
      simp only [Option.some.injEq, Except.ok.injEq, Prod.mk.injEq] at h
      obtain ⟨hs, hbm⟩ := h
      subst hbm
      refine ⟨by simp [← hs], rfl, by rw [heq]; simp⟩

lemma check_ok_some (gen : String → Vec) (parse : String → Option Vec)
    (t d c l : String) (cands : List Candidate) (thr : ℝ) (m : BestMatch)
    (h : check_duplicate gen parse t d c l cands thr = Except.ok (some m)) :
    m.similarity_score ≥ thr ∧
    ∃ b, scanCandidates parse (gen (complaint_text t d c l)) c l cands 0.0 Option.none =
      Except.ok (b, some m) := by
  unfold check_duplicate at h
  split at h
  · exact absurd h (by simp)
  · dsimp only [] at h
    split at h
    · exact absurd h (by simp)
    · exact absurd h (by simp)
    next b bm hscan =>
      split at h
      next hge =>
        simp only [Except.ok.injEq, Option.some.injEq] at h
        subst h
        exact ⟨hge, b, hscan⟩
      · exact absurd h (by simp)

lemma scan_ok_sound (parse : String → Option Vec) (ne : Vec) (nc nl : String) :
    ∀ (l : List Candidate) (b b' : ℝ) (m m' : Option BestMatch),
    scanCandidates parse ne nc nl l b m = Except.ok (b', m') →
    (b' = b ∧ m' = m ∧
      ∀ i (hi : i < l.length) s bm,
        evaluate_candidate parse ne nc nl (l.get ⟨i, hi⟩) = some (Except.ok (s, bm)) →
        s ≤ b) ∨
    (∃ (i : ℕ) (hi : i < l.length) (s : ℝ) (bm : BestMatch),
      evaluate_candidate parse ne nc nl (l.get ⟨i, hi⟩) = some (Except.ok (s, bm)) ∧
      b' = s ∧ b < s ∧ m' = some bm ∧
      (∀ j (hj : j < l.length) s' bm',
        evaluate_candidate parse ne nc nl (l.get ⟨j, hj⟩) = some (Except.ok (s', bm')) →
        s' ≤ s) ∧
      (∀ j (hj : j < l.length), j < i → ∀ s' bm',
        evaluate_candidate parse ne nc nl (l.get ⟨j, hj⟩) = some (Except.ok (s', bm')) →
        s' < s)) := by
  intro l
  induction l with
  | nil =>
    intro b b' m m' h
    unfold scanCandidates at h
    simp only [Except.ok.injEq, Prod.mk.injEq] at h
    exact Or.inl ⟨h.1.symm, h.2.symm, fun i hi => absurd hi (by simp)⟩
  | cons c rest ih =>
    intro b b' m m' h
    unfold scanCandidates at h
    split at h
    case _ heval =>
      rcases ih b b' m m' h with ⟨hb, hm, hall⟩ | ⟨i, hi, s, bm, he, hb, hlt, hm, hall, hfirst⟩
      · refine Or.inl ⟨hb, hm, ?_⟩
        intro i hi s bm hev
        match i with
        | 0 => rw [List.get] at hev; rw [heval] at hev; exact absurd hev (by simp)
        | i + 1 =>
          exact hall i (by simp only [List.length_cons] at hi; omega) s bm hev
      · refine Or.inr ⟨i + 1, by simp only [List.length_cons]; omega, s, bm, he, hb, hlt, hm, ?_, ?_⟩
        · intro j hj s' bm' hev
          match j with
          | 0 => rw [List.get] at hev; rw [heval] at hev; exact absurd hev (by simp)
          | j + 1 =>
            exact hall j (by simp only [List.length_cons] at hj; omega) s' bm' hev
        · intro j hj hji s' bm' hev
          match j with
          | 0 => rw [List.get] at hev; rw [heval] at hev; exact absurd hev (by simp)
          | j + 1 =>
            exact hfirst j (by simp only [List.length_cons] at hj; omega) (by omega) s' bm' hev
    case _ e heval => exact absurd h (by simp)
    case _ s0 bm0 heval =>
      by_cases hgt : s0 > b
      · rw [if_pos hgt] at h
        rcases ih s0 b' (some bm0) m' h with ⟨hb, hm, hall⟩ | ⟨i, hi, s, bm, he, hb, hlt, hm, hall, hfirst⟩
        · refine Or.inr ⟨0, by simp, s0, bm0, ?_, hb, hgt, hm, ?_, ?_⟩
          · rw [List.get]; exact heval
          · intro j hj s' bm' hev
            match j with
            | 0 =>
              rw [List.get] at hev; rw [heval] at hev
              simp only [Option.some.injEq, Except.ok.injEq, Prod.mk.injEq] at hev
              exact le_of_eq hev.1.symm
            | j + 1 =>
              exact hall j (by simp only [List.length_cons] at hj; omega) s' bm' hev
          · intro j hj hji; omega
        · refine Or.inr ⟨i + 1, by simp only [List.length_cons]; omega, s, bm, he, hb, lt_trans hgt hlt, hm, ?_, ?_⟩
          · intro j hj s' bm' hev
            match j with
            | 0 =>
              rw [List.get] at hev; rw [heval] at hev
              simp only [Option.some.injEq, Except.ok.injEq, Prod.mk.injEq] at hev
              rw [← hev.1]; exact le_of_lt hlt
            | j + 1 =>
              exact hall j (by simp only [List.length_cons] at hj; omega) s' bm' hev
          · intro j hj hji s' bm' hev
            match j with
            | 0 =>
              rw [List.get] at hev; rw [heval] at hev
              simp only [Option.some.injEq, Except.ok.injEq, Prod.mk.injEq] at hev
              rw [← hev.1]; exact hlt
            | j + 1 =>
              exact hfirst j (by simp only [List.length_cons] at hj; omega) (by omega) s' bm' hev
      · rw [if_neg hgt] at h
        rcases ih b b' m m' h with ⟨hb, hm, hall⟩ | ⟨i, hi, s, bm, he, hb, hlt, hm, hall, hfirst⟩
        · refine Or.inl ⟨hb, hm, ?_⟩
          intro i hi s bm hev
          match i with
          | 0 =>
            rw [List.get] at hev; rw [heval] at hev
            simp only [Option.some.injEq, Except.ok.injEq, Prod.mk.injEq] at hev
            rw [← hev.1]; exact le_of_not_lt hgt
          | i + 1 =>
            exact hall i (by simp only [List.length_cons] at hi; omega) s bm hev
        · refine Or.inr ⟨i + 1, by simp only [List.length_cons]; omega, s, bm, he, hb, hlt, hm, ?_, ?_⟩
          · intro j hj s' bm' hev
            match j with
            | 0 =>
              rw [List.get] at hev; rw [heval] at hev
              simp only [Option.some.injEq, Except.ok.injEq, Prod.mk.injEq] at hev
              rw [← hev.1]; exact le_of_lt (lt_of_le_of_lt (le_of_not_lt hgt) hlt)
            | j + 1 =>
              exact hall j (by simp only [List.length_cons] at hj; omega) s' bm' hev
          · intro j hj hji s' bm' hev
            match j with
            | 0 =>
              rw [List.get] at hev; rw [heval] at hev
              simp only [Option.some.injEq, Except.ok.injEq, Prod.mk.injEq] at hev
              rw [← hev.1]; exact lt_of_le_of_lt (le_of_not_lt hgt) hlt
            | j + 1 =>
              exact hfirst j (by simp only [List.length_cons] at hj; omega) (by omega) s' bm' hev

lemma scan_skip (parse : String → Option Vec) (ne : Vec) (nc nl : String)
    (bad : Candidate) (hbad : evaluate_candidate parse ne nc nl bad = Option.none) :
    ∀ (pre post : List Candidate) (b : ℝ) (m : Option BestMatch),
    scanCandidates parse ne nc nl (pre ++ bad :: post) b m =
      scanCandidates parse ne nc nl (pre ++ post) b m := by
  intro pre
  induction pre with
  | nil =>
    intro post b m
    simp only [List.nil_append, scanCandidates, hbad]
  | cons c pre ih =>
    intro post b m
    simp only [List.cons_append]
    rcases heval : evaluate_candidate parse ne nc nl c with _ | r
    · simp only [scanCandidates, heval]
      exact ih post b m
    · rcases r with e | ⟨s0, bm0⟩
      · simp only [scanCandidates, heval]
      · simp only [scanCandidates, heval]
        by_cases hgt : s0 > b
        · rw [if_pos hgt, if_pos hgt]; exact ih post s0 (some bm0)
        · rw [if_neg hgt, if_neg hgt]; exact ih post b m

lemma scan_no_update (parse : String → Option Vec) (ne : Vec) (nc nl : String) :
    ∀ (l : List Candidate) (b : ℝ) (m : Option BestMatch),
    (∀ (i : ℕ) (hi : i < l.length) (e : Unit),
      evaluate_candidate parse ne nc nl (l.get ⟨i, hi⟩) ≠ some (Except.error e)) →
    (∀ (i : ℕ) (hi : i < l.length) (s : ℝ) (bm : BestMatch),
      evaluate_candidate parse ne nc nl (l.get ⟨i, hi⟩) = some (Except.ok (s, bm)) → s ≤ b) →
    scanCandidates parse ne nc nl l b m = Except.ok (b, m) := by
  intro l
  induction l with
  | nil => intro b m _ _; rfl
  | cons c rest ih =>
    intro b m herr hle
    rcases heval : evaluate_candidate parse ne nc nl c with _ | r
    · simp only [scanCandidates, heval]
      exact ih b m
        (fun i hi e hev => herr (i + 1) (by simp only [List.length_cons]; omega) e hev)
        (fun i hi s bm hev => hle (i + 1) (by simp only [List.length_cons]; omega) s bm hev)
    · rcases r with e | ⟨s0, bm0⟩
      · exact absurd heval (herr 0 (by simp) e)
      · simp only [scanCandidates, heval]
        have hs0 : s0 ≤ b := hle 0 (by simp) s0 bm0 (by rw [List.get]; exact heval)
        rw [if_neg (by exact not_lt.mpr hs0)]
        exact ih b m
          (fun i hi e hev => herr (i + 1) (by simp only [List.length_cons]; omega) e hev)
          (fun i hi s bm hev => hle (i + 1) (by simp only [List.length_cons]; omega) s bm hev)

-- ───────── pure function lemmas ─────────

lemma check_duplicate_ok_some_spec (gen : String → Vec) (parse : String → Option Vec)
    (t d c l : String) (cands : List Candidate) (thr : ℝ) (m : BestMatch)
    (h : check_duplicate gen parse t d c l cands thr = Except.ok (some m)) :
    m.similarity_score ≥ thr ∧
    ∃ (i : ℕ) (hi : i < cands.length) (s : ℝ),
      evaluate_candidate parse (gen (complaint_text t d c l)) c l (cands.get ⟨i, hi⟩) =
        some (Except.ok (s, m)) ∧
      0 < s ∧
      m.similarity_score = pyRoundTo s 4 ∧
      m.complaint = cands.get ⟨i, hi⟩ ∧
      getUsableEmbedding parse m.complaint.embedding ≠ Option.none ∧
      (∀ (j : ℕ) (hj : j < cands.length) (s' : ℝ) (bm' : BestMatch),
        evaluate_candidate parse (gen (complaint_text t d c l)) c l (cands.get ⟨j, hj⟩) =
          some (Except.ok (s', bm')) → s' ≤ s) ∧
      (∀ (j : ℕ) (hj : j < cands.length), j < i → ∀ (s' : ℝ) (bm' : BestMatch),
        evaluate_candidate parse (gen (complaint_text t d c l)) c l (cands.get ⟨j, hj⟩) =
          some (Except.ok (s', bm')) → s' < s) := by
  obtain ⟨hge, b, hscan⟩ := check_ok_some gen parse t d c l cands thr m h
  rcases scan_ok_sound parse (gen (complaint_text t d c l)) c l cands 0.0 b
      Option.none (some m) hscan with ⟨_, hm, _⟩ | ⟨i, hi, s, bm, he, _, hlt, hm, hall, hfirst⟩
  · exact absurd hm (by simp)
  · simp only [Option.some.injEq] at hm
    subst hm
    obtain ⟨hround, hcomp, husable⟩ := eval_ok_fields parse (gen (complaint_text t d c l))
      c l (cands.get ⟨i, hi⟩) s m he
    exact ⟨hge, i, hi, s, he, lt_of_le_of_lt (by norm_num : (0 : ℝ) ≤ 0.0) hlt,
      hround, hcomp, by rw [hcomp]; exact husable, hall, hfirst⟩

lemma eval_none_of_unusable (parse : String → Option Vec) (ne : Vec) (nc nl : String)
    (c : Candidate) (h : getUsableEmbedding parse c.embedding = Option.none) :
    evaluate_candidate parse ne nc nl c = Option.none := by
  simp only [evaluate_candidate, h]

lemma check_duplicate_skip_eq (gen : String → Vec) (parse : String → Option Vec)
    (t d c l : String) (pre post : List Candidate) (bad : Candidate) (thr : ℝ)
    (hbad : getUsableEmbedding parse bad.embedding = Option.none) :
    check_duplicate gen parse t d c l (pre ++ bad :: post) thr =
      check_duplicate gen parse t d c l (pre ++ post) thr := by
  have hskip := scan_skip parse (gen (complaint_text t d c l)) c l bad
    (eval_none_of_unusable parse (gen (complaint_text t d c l)) c l bad hbad)
  by_cases hpp : pre ++ post = []
  · obtain ⟨hpre, hpost⟩ := List.append_eq_nil.mp hpp
    subst hpre; subst hpost
    simp only [List.nil_append, check_duplicate, List.isEmpty_cons, Bool.false_eq_true,
      if_false, List.isEmpty_nil, if_true]
    rw [show scanCandidates parse (gen (complaint_text t d c l)) c l [bad] 0.0 Option.none =
        Except.ok (0.0, Option.none) from by
      have h1 := hskip [] [] 0.0 Option.none
      simp only [List.nil_append] at h1
      rw [h1]
      rfl]
  · unfold check_duplicate
    rw [if_neg (by simp [List.isEmpty_iff]), if_neg (by simp [List.isEmpty_iff, hpp])]
    dsimp only
    rw [hskip pre post 0.0 Option.none]

lemma check_duplicate_no_positive (gen : String → Vec) (parse : String → Option Vec)
    (t d c l : String) (cands : List Candidate) (thr : ℝ)
    (herr : ∀ (i : ℕ) (hi : i < cands.length) (e : Unit),
      evaluate_candidate parse (gen (complaint_text t d c l)) c l (cands.get ⟨i, hi⟩) ≠
        some (Except.error e))
    (hle : ∀ (i : ℕ) (hi : i < cands.length) (s : ℝ) (bm : BestMatch),
      evaluate_candidate parse (gen (complaint_text t d c l)) c l (cands.get ⟨i, hi⟩) =
        some (Except.ok (s, bm)) → s ≤ 0) :
    check_duplicate gen parse t d c l cands thr = Except.ok Option.none := by
  unfold check_duplicate
  by_cases hemp : cands.isEmpty
  · rw [if_pos hemp]
  · rw [if_neg hemp]
    have hscan := scan_no_update parse (gen (complaint_text t d c l)) c l cands 0.0
      Option.none herr
      (fun i hi s bm hev => le_trans (hle i hi s bm hev) (by norm_num))
    dsimp only
    rw [hscan]

-- ───────── score-zero example ─────────

/-! ### Claims -/

/-- C1, counterexample: `check_duplicate` can return a match whose raw fused
score is strictly below the threshold.  With threshold `5029/10000`, the single
candidate `candX` has raw fused score `88/175 < 5029/10000`, yet because the
code compares the 4-decimal-rounded `similarity_score` (`round(score, 4) =
5029/10000 ≥ threshold`) the match is returned. -/
theorem check_duplicate_rounded_counterexample :
    check_duplicate genX parseFail "t" "d" "roads" "a" [candX] (5029 / 10000) =
      Except.ok (some matchX) ∧
    genX (complaint_text "t" "d" "roads" "a") = [3, 4] ∧
    evaluate_candidate parseFail [3, 4] "roads" "a" candX =
      some (Except.ok (88 / 175, matchX)) ∧
    ((88 : ℝ) / 175) < 5029 / 10000 :=
  ⟨checkX, rfl, evalX, by norm_num⟩

/-- C1, amended: whenever `check_duplicate` returns a match, the returned
record is the one the loop built for some candidate with raw fused score `s`,
the stored `similarity_score` equals `round(s, 4)`, and it is this rounded
value (not the raw `s`) that is `≥ threshold`. -/
theorem check_duplicate_threshold_on_rounded (gen : String → Vec)
    (parse : String → Option Vec) (t d c l : String) (cands : List Candidate)
    (thr : ℝ) (m : BestMatch)
    (h : check_duplicate gen parse t d c l cands thr = Except.ok (some m)) :
    m.similarity_score ≥ thr ∧
    ∃ (i : ℕ) (hi : i < cands.length) (s : ℝ),
      evaluate_candidate parse (gen (complaint_text t d c l)) c l (cands.get ⟨i, hi⟩) =
        some (Except.ok (s, m)) ∧
      m.similarity_score = pyRoundTo s 4 := by
  obtain ⟨hge, i, hi, s, he, _, hround, _⟩ :=
    check_duplicate_ok_some_spec gen parse t d c l cands thr m h
  exact ⟨hge, i, hi, s, he, hround⟩

/-- C1, witness for the amended theorem at the concrete `candX` run. -/
theorem check_duplicate_threshold_on_rounded_witness :
    matchX.similarity_score ≥ 5029 / 10000 ∧
    ∃ (i : ℕ) (hi : i < ([candX] : List Candidate).length) (s : ℝ),
      evaluate_candidate parseFail (genX (complaint_text "t" "d" "roads" "a")) "roads" "a"
        (([candX] : List Candidate).get ⟨i, hi⟩) = some (Except.ok (s, matchX)) ∧
      matchX.similarity_score = pyRoundTo s 4 :=
  check_duplicate_threshold_on_rounded genX parseFail "t" "d" "roads" "a" [candX]
    (5029 / 10000) matchX checkX

/-- C2: when `check_duplicate` returns a match, it is the record of a candidate
at some index `i` whose fused score `s` is maximal among all usable candidates,
and every usable candidate strictly before `i` has a strictly smaller score, so
on ties the earliest-seen candidate wins (strictly-greater comparison). -/
theorem check_duplicate_first_highest (gen : String → Vec)
    (parse : String → Option Vec) (t d c l : String) (cands : List Candidate)
    (thr : ℝ) (m : BestMatch)
    (h : check_duplicate gen parse t d c l cands thr = Except.ok (some m)) :
    ∃ (i : ℕ) (hi : i < cands.length) (s : ℝ),
      evaluate_candidate parse (gen (complaint_text t d c l)) c l (cands.get ⟨i, hi⟩) =
        some (Except.ok (s, m)) ∧
      m.complaint = cands.get ⟨i, hi⟩ ∧
      (∀ (j : ℕ) (hj : j < cands.length) (s' : ℝ) (bm' : BestMatch),
        evaluate_candidate parse (gen (complaint_text t d c l)) c l (cands.get ⟨j, hj⟩) =
          some (Except.ok (s', bm')) → s' ≤ s) ∧
      (∀ (j : ℕ) (hj : j < cands.length), j < i → ∀ (s' : ℝ) (bm' : BestMatch),
        evaluate_candidate parse (gen (complaint_text t d c l)) c l (cands.get ⟨j, hj⟩) =
          some (Except.ok (s', bm')) → s' < s) := by
  obtain ⟨_, i, hi, s, he, _, _, hcomp, _, hall, hfirst⟩ :=
    check_duplicate_ok_some_spec gen parse t d c l cands thr m h
  exact ⟨i, hi, s, he, hcomp, hall, hfirst⟩

/-- C2, witness at the concrete `candX` run. -/
theorem check_duplicate_first_highest_witness :
    ∃ (i : ℕ) (hi : i < ([candX] : List Candidate).length) (s : ℝ),
      evaluate_candidate parseFail (genX (complaint_text "t" "d" "roads" "a")) "roads" "a"
        (([candX] : List Candidate).get ⟨i, hi⟩) = some (Except.ok (s, matchX)) ∧
      matchX.complaint = ([candX] : List Candidate).get ⟨i, hi⟩ ∧
      (∀ (j : ℕ) (hj : j < ([candX] : List Candidate).length) (s' : ℝ) (bm' : BestMatch),
        evaluate_candidate parseFail (genX (complaint_text "t" "d" "roads" "a")) "roads" "a"
          (([candX] : List Candidate).get ⟨j, hj⟩) = some (Except.ok (s', bm')) → s' ≤ s) ∧
      (∀ (j : ℕ) (hj : j < ([candX] : List Candidate).length), j < i →
        ∀ (s' : ℝ) (bm' : BestMatch),
        evaluate_candidate parseFail (genX (complaint_text "t" "d" "roads" "a")) "roads" "a"
          (([candX] : List Candidate).get ⟨j, hj⟩) = some (Except.ok (s', bm')) → s' < s) :=
  check_duplicate_first_highest genX parseFail "t" "d" "roads" "a" [candX]
    (5029 / 10000) matchX checkX

/-- C3: with a stored embedding of length 2 and a new embedding of length 3,
`np.dot` raises (modelled by `Except.error ()`), and `check_duplicate`
propagates the exception instead of completing: the call crashes, contradicting
the spec's "must not crash" requirement. -/
theorem check_duplicate_dimension_mismatch_raises :
    check_duplicate genMis parseFail "t" "d" "c" "l" [candMis] (3 / 4) = Except.error () ∧
    (genMis (complaint_text "t" "d" "c" "l")).length ≠ ([1, 0] : Vec).length ∧
    cosine_similarity (genMis (complaint_text "t" "d" "c" "l")) [1, 0] = Except.error () :=
  ⟨rfl, by decide, rfl⟩

/-- C4: a candidate whose embedding is absent/falsy, or whose serialized text
fails to deserialize (`getUsableEmbedding parse bad.embedding = none`), is
skipped: removing it from the candidate list does not change the result of
`check_duplicate`, and any returned best match always has a usable embedding,
so such a candidate can never become the best match. -/
theorem check_duplicate_skips_unusable (gen : String → Vec) (parse : String → Option Vec)
    (t d c l : String) (pre post : List Candidate) (bad : Candidate) (thr : ℝ)
    (hbad : getUsableEmbedding parse bad.embedding = Option.none) :
    check_duplicate gen parse t d c l (pre ++ bad :: post) thr =
      check_duplicate gen parse t d c l (pre ++ post) thr ∧
    (∀ m : BestMatch,
      check_duplicate gen parse t d c l (pre ++ bad :: post) thr = Except.ok (some m) →
      getUsableEmbedding parse m.complaint.embedding ≠ Option.none) := by
  refine ⟨check_duplicate_skip_eq gen parse t d c l pre post bad thr hbad, ?_⟩
  intro m h
  obtain ⟨_, i, hi, s, he, _, _, _, husable, _⟩ :=
    check_duplicate_ok_some_spec gen parse t d c l (pre ++ bad :: post) thr m h
  exact husable

/-- C4, witness: dropping the embedding-less `candMissing` in front of `candX`
leaves the result unchanged. -/
theorem check_duplicate_skips_unusable_witness :
    getUsableEmbedding parseFail candMissing.embedding = Option.none ∧
    (check_duplicate genX parseFail "t" "d" "roads" "a" ([] ++ candMissing :: [candX])
        (5029 / 10000) =
      check_duplicate genX parseFail "t" "d" "roads" "a" ([] ++ [candX]) (5029 / 10000) ∧
    (∀ m : BestMatch,
      check_duplicate genX parseFail "t" "d" "roads" "a" ([] ++ candMissing :: [candX])
          (5029 / 10000) = Except.ok (some m) →
      getUsableEmbedding parseFail m.complaint.embedding ≠ Option.none)) :=
  ⟨rfl, check_duplicate_skips_unusable genX parseFail "t" "d" "roads" "a" [] [candX]
    candMissing (5029 / 10000) rfl⟩

/-- C5: `combined_score` is exactly `text_sim * 0.60 + loc_sim * 0.30 +
(1.0 if category_match else 0.0) * 0.10`, lies in `[0, 1]` for inputs in
`[0, 1]`, and satisfies `combined_score 1 1 true = 1` and
`combined_score 0 0 false = 0`. -/
theorem combined_score_spec (t l : ℝ) (c : Bool) :
    combined_score t l c = (t * 0.60) + (l * 0.30) + ((if c then 1.0 else 0.0) * 0.10) ∧
    (0 ≤ t → t ≤ 1 → 0 ≤ l → l ≤ 1 →
      0 ≤ combined_score t l c ∧ combined_score t l c ≤ 1) ∧
    combined_score 1 1 true = 1 ∧ combined_score 0 0 false = 0 := by
  refine ⟨rfl, ?_, by unfold combined_score; norm_num, by unfold combined_score; norm_num⟩
  intro ht0 ht1 hl0 hl1
  unfold combined_score
  cases c
  · rw [if_neg (by simp)]
    constructor <;> nlinarith
  · rw [if_pos rfl]
    constructor <;> nlinarith

/-- C5, witness: the `[0, 1]` bounds at `text_sim = 1/2`, `loc_sim = 1/3`. -/
theorem combined_score_spec_witness :
    0 ≤ combined_score (1 / 2) (1 / 3) true ∧ combined_score (1 / 2) (1 / 3) true ≤ 1 :=
  (combined_score_spec (1 / 2) (1 / 3) true).2.1 (by norm_num) (by norm_num)
    (by norm_num) (by norm_num)

/-- C6: `location_similarity` is symmetric, returns a value in `[0, 1]`,
returns `0` when either token set is empty, and otherwise equals the token-set
intersection size divided by the size of the larger set. -/
theorem location_similarity_spec (a b : String) :
    location_similarity a b = location_similarity b a ∧
    0 ≤ location_similarity a b ∧ location_similarity a b ≤ 1 ∧
    ((locTokens a = ∅ ∨ locTokens b = ∅) → location_similarity a b = 0) ∧
    (locTokens a ≠ ∅ → locTokens b ≠ ∅ →
      location_similarity a b = ((locTokens a ∩ locTokens b).card : ℚ) /
        ((max (locTokens a).card (locTokens b).card : ℕ) : ℚ)) := by
  refine ⟨?_, ?_, ?_, ?_, ?_⟩
  · unfold location_similarity
    by_cases ha : locTokens a = ∅ <;> by_cases hb : locTokens b = ∅
    · rw [if_pos (Or.inl ha), if_pos (Or.inl hb)]
    · rw [if_pos (Or.inl ha), if_pos (Or.inr ha)]
    · rw [if_pos (Or.inr hb), if_pos (Or.inl hb)]
    · rw [if_neg (by tauto), if_neg (by tauto), Finset.inter_comm, Nat.max_comm]
  · unfold location_similarity
    by_cases h : locTokens a = ∅ ∨ locTokens b = ∅
    · rw [if_pos h]
    · rw [if_neg h]
      exact div_nonneg (by positivity) (by positivity)
  · unfold location_similarity
    by_cases h : locTokens a = ∅ ∨ locTokens b = ∅
    · rw [if_pos h]; norm_num
    · rw [if_neg h]
      push_neg at h
      have hapos : 0 < (locTokens a).card := Finset.card_pos.mpr (Finset.nonempty_iff_ne_empty.mpr h.1)
      have hdpos : (0 : ℚ) < ((max (locTokens a).card (locTokens b).card : ℕ) : ℚ) := by
        have : 0 < max (locTokens a).card (locTokens b).card := lt_of_lt_of_le hapos (le_max_left _ _)
        exact_mod_cast this
      rw [div_le_one hdpos]
      have hcard : (locTokens a ∩ locTokens b).card ≤ max (locTokens a).card (locTokens b).card :=
        le_trans (Finset.card_le_card (Finset.inter_subset_left)) (le_max_left _ _)
      exact_mod_cast hcard
  · intro h; unfold location_similarity; rw [if_pos h]
  · intro ha hb; unfold location_similarity; rw [if_neg (by tauto)]

/-- C6, witness: the intersection-over-max formula at two non-empty token
sets. -/
theorem location_similarity_spec_witness :
    location_similarity "mg road" "mg road" =
      ((locTokens "mg road" ∩ locTokens "mg road").card : ℚ) /
        ((max (locTokens "mg road").card (locTokens "mg road").card : ℕ) : ℚ) :=
  (location_similarity_spec "mg road" "mg road").2.2.2.2 (by decide) (by decide)

/-- C7: the fragment list of `build_reasoning` is empty exactly when
`text_sim < 0.50`, `loc_sim < 0.30` and the category does not match; in that
case the output is the single generic fallback sentence, and otherwise it is
the fragments joined with single spaces in the fixed priority order text,
location, category. -/
theorem build_reasoning_spec (score t l : ℝ) (c : Bool) (nl el nc ec : String) :
    (reasoning_parts t l c nl el nc = [] ↔ t < 0.5 ∧ l < 0.3 ∧ c = false) ∧
    (reasoning_parts t l c nl el nc = [] →
      build_reasoning score t l c nl el nc ec = fallback_sentence score) ∧
    (reasoning_parts t l c nl el nc ≠ [] →
      build_reasoning score t l c nl el nc ec =
        String.intercalate " " (reasoning_parts t l c nl el nc)) := by
  refine ⟨⟨?_, ?_⟩, ?_, ?_⟩
  · intro h
    unfold reasoning_parts at h
    simp only [List.append_eq_nil] at h
    obtain ⟨⟨hA, hB⟩, hC⟩ := h
    refine ⟨?_, ?_, ?_⟩
    · by_contra hlt
      push_neg at hlt
      by_cases h7 : t ≥ 0.7
      · rw [if_pos h7] at hA; exact absurd hA (by simp)
      · rw [if_neg h7, if_pos hlt] at hA; exact absurd hA (by simp)
    · by_contra hlt
      push_neg at hlt
      by_cases h6 : l ≥ 0.6
      · rw [if_pos h6] at hB; exact absurd hB (by simp)
      · rw [if_neg h6, if_pos hlt] at hB; exact absurd hB (by simp)
    · cases hc : c
      · rfl
      · rw [hc, if_pos rfl] at hC; exact absurd hC (by simp)
  · rintro ⟨ht, hl, hc⟩
    subst hc
    unfold reasoning_parts
    rw [if_neg (not_le.mpr (by linarith : t < (0.7 : ℝ))),
        if_neg (not_le.mpr ht),
        if_neg (not_le.mpr (by linarith : l < (0.6 : ℝ))),
        if_neg (not_le.mpr hl)]
    simp
  · intro h
    simp only [build_reasoning]
    rw [if_pos h]
    rfl
  · intro h
    simp only [build_reasoning]
    rw [if_neg h]

/-- C7, witness: all three signals below their display thresholds yields the
fallback sentence. -/
theorem build_reasoning_spec_witness :
    build_reasoning (6 / 10) (2 / 5) (1 / 5) false "x" "y" "z" "w" =
      fallback_sentence (6 / 10) :=
  (build_reasoning_spec (6 / 10) (2 / 5) (1 / 5) false "x" "y" "z" "w").2.1
    (by
      unfold reasoning_parts
      rw [if_neg (not_le.mpr (by norm_num : (2 : ℝ) / 5 < 0.7)),
          if_neg (not_le.mpr (by norm_num : (2 : ℝ) / 5 < 0.5)),
          if_neg (not_le.mpr (by norm_num : (1 : ℝ) / 5 < 0.6)),
          if_neg (not_le.mpr (by norm_num : (1 : ℝ) / 5 < 0.3)),
          if_neg (show ¬(false = true) by simp)]
      rfl)

/-- C8: `cosine_similarity v v = 1` for every vector with a non-zero entry,
and `cosine_similarity a b = 0` (rather than a division-by-zero failure)
whenever either equal-length argument has Euclidean norm zero. -/
theorem cosine_similarity_spec (v a b : Vec) :
    ((∃ x ∈ v, x ≠ 0) → cosine_similarity v v = Except.ok 1) ∧
    (a.length = b.length → sumSq a = 0 ∨ sumSq b = 0 →
      cosine_similarity a b = Except.ok 0) := by
  constructor
  · rintro ⟨x, hx, hne⟩
    have hpos : 0 < sumSq v := sumSq_pos v x hx hne
    have hcast : (0 : ℝ) < ((sumSq v : ℚ) : ℝ) := by exact_mod_cast hpos
    unfold cosine_similarity npNorm
    rw [if_neg (by simp)]
    rw [show Real.sqrt ((sumSq v : ℚ) : ℝ) * Real.sqrt ((sumSq v : ℚ) : ℝ) =
        ((sumSq v : ℚ) : ℝ) from Real.mul_self_sqrt (le_of_lt hcast)]
    rw [if_neg (ne_of_gt hcast)]
    rw [dot_self_eq_sumSq]
    rw [div_self (ne_of_gt hcast)]
  · intro hlen hzero
    unfold cosine_similarity npNorm
    rw [if_neg (by simp [hlen])]
    rw [if_pos ?_]
    rcases hzero with h | h <;> rw [h] <;> simp

/-- C8, witness: self-similarity of `[1, 2]` and the zero-vector case. -/
theorem cosine_similarity_spec_witness :
    cosine_similarity [1, 2] [1, 2] = Except.ok 1 ∧
    cosine_similarity [0, 0] [3, 4] = Except.ok 0 :=
  ⟨(cosine_similarity_spec [1, 2] [0, 0] [3, 4]).1 ⟨2, by simp, by norm_num⟩,
   (cosine_similarity_spec [1, 2] [0, 0] [3, 4]).2 rfl (Or.inl (by norm_num [sumSq]))⟩

/-- C9: with an empty candidate list `check_duplicate` returns nothing
immediately, and the result does not depend on the embedding provider `gen` —
the provider is never invoked. -/
theorem check_duplicate_empty (gen gen2 : String → Vec) (parse : String → Option Vec)
    (t d c l : String) (thr : ℝ) :
    check_duplicate gen parse t d c l [] thr = Except.ok Option.none ∧
    check_duplicate gen parse t d c l [] thr = check_duplicate gen2 parse t d c l [] thr :=
  ⟨rfl, rfl⟩

/-- C10: the running best score starts at `0.0` and is replaced only on a
strictly greater fused score, so any returned best match has fused score
`> 0`; and whenever every usable candidate's fused score is `≤ 0` (and no
comparison raises), `check_duplicate` returns nothing, for every threshold
including `0`. -/
theorem check_duplicate_nonpositive_scores (gen : String → Vec)
    (parse : String → Option Vec) (t d c l : String) (cands : List Candidate) (thr : ℝ) :
    (∀ m : BestMatch, check_duplicate gen parse t d c l cands thr = Except.ok (some m) →
      ∃ (i : ℕ) (hi : i < cands.length) (s : ℝ),
        evaluate_candidate parse (gen (complaint_text t d c l)) c l (cands.get ⟨i, hi⟩) =
          some (Except.ok (s, m)) ∧ 0 < s) ∧
    ((∀ (i : ℕ) (hi : i < cands.length) (e : Unit),
        evaluate_candidate parse (gen (complaint_text t d c l)) c l (cands.get ⟨i, hi⟩) ≠
          some (Except.error e)) →
      (∀ (i : ℕ) (hi : i < cands.length) (s : ℝ) (bm : BestMatch),
        evaluate_candidate parse (gen (complaint_text t d c l)) c l (cands.get ⟨i, hi⟩) =
          some (Except.ok (s, bm)) → s ≤ 0) →
      check_duplicate gen parse t d c l cands thr = Except.ok Option.none) := by
  constructor
  · intro m h
    obtain ⟨_, i, hi, s, he, hpos, _⟩ :=
      check_duplicate_ok_some_spec gen parse t d c l cands thr m h
    exact ⟨i, hi, s, he, hpos⟩
  · intro herr hle
    exact check_duplicate_no_positive gen parse t d c l cands thr herr hle

/-- C10, witness: `candZ` scores exactly `0` on all three signals, and the
call with threshold `0` returns nothing. -/
theorem check_duplicate_nonpositive_scores_witness :
    check_duplicate genO parseFail "t" "d" "c" "a" [candZ] 0 = Except.ok Option.none :=
  (check_duplicate_nonpositive_scores genO parseFail "t" "d" "c" "a" [candZ] 0).2
    (by
      intro i hi e hev
      match i with
      | 0 =>
        rw [List.get] at hev
        rw [evalZ] at hev
        exact absurd hev (by simp)
      | i + 1 =>
        simp only [List.length_singleton] at hi
        omega
      )
    (by
      intro i hi s bm hev
      match i with
      | 0 =>
        rw [List.get] at hev
        rw [evalZ] at hev
        simp only [Option.some.injEq, Except.ok.injEq, Prod.mk.injEq] at hev
        rw [← hev.1]
      | i + 1 =>
        simp only [List.length_singleton] at hi
        omega
      )
